import Mathlib

/-!
Verification of the mutiny-node channel-state persistence layer.

This file gives a shallow embedding, in Lean 4, of the persistence layer of
the mutiny-node wallet: the channel-manager/channel-monitor persister in
mutiny-core/src/ldkstorage.rs and the startup reconciliation reader in
mutiny-wasm/src/indexed_db.rs.  Machine integers are modelled as Nat with
explicit modulus where overflow matters; fallible operations return Except
or Option; the background monitor-persist loop is modelled as a fuel-indexed
event-trace generator.  Storage-contract helpers that live outside the
embedded files (the key/value scan, get_data decoding, the VSS client and
get_monitor_version) are modelled from the specification and are marked as
such in their doc comments.
-/

namespace MutinyNode

/-- Modulus of a 32-bit unsigned integer. -/
def U32MOD : Nat := 4294967296

/-- Largest value of a 32-bit unsigned integer (u32 MAX). -/
def U32MAX : Nat := 4294967295

/-- Modulus of a 64-bit unsigned integer. -/
def U64MOD : Nat := 18446744073709551616

/-! ## Hex encoding

Model of the bitcoin-hashes ToHex / FromHex helpers used by the persister
for payment keys and spendable-output descriptors.  Bytes are Nat below 256,
hex output is lowercase, as produced by the library. -/

/-- One byte rendered as two lowercase hex characters. -/
def byteToHex (b : Nat) : List Char :=
  [Nat.digitChar (b / 16), Nat.digitChar (b % 16)]

/-- Byte string rendered as a lowercase hex character string (ToHex). -/
def bytesToHex (bs : List Nat) : List Char :=
  bs.flatMap byteToHex

/-- Value of a single lowercase hex character, none when not a hex digit. -/
def hexCharVal (c : Char) : Option Nat :=
  if '0' ≤ c ∧ c ≤ '9' then some (c.toNat - 48)
  else if 'a' ≤ c ∧ c ≤ 'f' then some (c.toNat - 87)
  else none

/-- Decode a hex character string back to bytes (FromHex); fails on an odd
length or a non-hex character. -/
def hexToBytes : List Char → Option (List Nat)
  | [] => some []
  | [_] => none
  | c1 :: c2 :: rest =>
    match hexCharVal c1, hexCharVal c2, hexToBytes rest with
    | some h, some l, some tail => some ((16 * h + l) :: tail)
    | _, _, _ => none

theorem hexCharVal_digitChar : ∀ n : Nat, n < 16 →
    hexCharVal (Nat.digitChar n) = some n := by
  decide

theorem hexToBytes_bytesToHex {bs : List Nat} (h : ∀ b ∈ bs, b < 256) :
    hexToBytes (bytesToHex bs) = some bs := by
  induction bs with
  | nil => rfl
  | cons b rest ih =>
    have hb : b < 256 := h b (List.mem_cons_self b rest)
    have hdiv : b / 16 < 16 := Nat.div_lt_of_lt_mul (by omega)
    have hmod : b % 16 < 16 := Nat.mod_lt _ (by omega)
    have hrest : hexToBytes (bytesToHex rest) = some rest :=
      ih (fun x hx => h x (List.mem_cons_of_mem _ hx))
    simp only [bytesToHex, List.flatMap_cons, byteToHex, List.cons_append,
      List.nil_append]
    simp only [hexToBytes, hexCharVal_digitChar _ hdiv,
      hexCharVal_digitChar _ hmod]
    rw [show bytesToHex rest = rest.flatMap byteToHex from rfl] at hrest
    rw [hrest]
    show some ((16 * (b / 16) + b % 16) :: rest) = some (b :: rest)
    rw [Nat.div_add_mod]

/-! ## Monitor storage version (ldkstorage.rs, persist_new_channel /
update_persisted_channel)

The monitor u64 update-id is converted to the u32 storage version with
saturation: `if update_id >= u32::MAX as u64 { u32::MAX } else { update_id as u32 }`. -/

/-- Storage version derived from a monitor update-id, as computed in
persist_new_channel and update_persisted_channel. -/
def monitorStorageVersion (updateId : Nat) : Nat :=
  if U32MAX ≤ updateId then U32MAX else updateId

/-- C8: for every monitor update-id (a u64), the 32-bit storage version is
the saturating truncation of the update-id: it equals u32 MAX when the
update-id is at least u32 MAX, equals the update-id otherwise, always fits
in a u32 (never wraps), and is monotone in the update-id. -/
theorem monitor_version_saturating (u v : Nat) (_hu : u < U64MOD) (_hv : v < U64MOD) :
    (U32MAX ≤ u → monitorStorageVersion u = U32MAX) ∧
    (u < U32MAX → monitorStorageVersion u = u) ∧
    monitorStorageVersion u ≤ U32MAX ∧
    (u ≤ v → monitorStorageVersion u ≤ monitorStorageVersion v) := by
  unfold monitorStorageVersion
  refine ⟨fun h => if_pos h, fun h => if_neg (by omega), ?_, ?_⟩
  · split <;> omega
  · intro huv
    split <;> split <;> omega

/-- Witness for C8 at update-id 7 against update-id u32 MAX + 5: the small
id is stored unchanged, the large one saturates at u32 MAX. -/
theorem monitor_version_saturating_witness :
    (U32MAX ≤ 7 → monitorStorageVersion 7 = U32MAX) ∧
    (7 < U32MAX → monitorStorageVersion 7 = 7) ∧
    monitorStorageVersion 7 ≤ U32MAX ∧
    (7 ≤ U32MAX + 5 → monitorStorageVersion 7 ≤ monitorStorageVersion (U32MAX + 5)) :=
  monitor_version_saturating 7 (U32MAX + 5) (by norm_num [U32MAX, U64MOD])
    (by norm_num [U32MAX, U64MOD])

/-! ## Channel-manager version counter (ldkstorage.rs)

The MutinyNodePersister owns an AtomicU32 manager_version; persist_manager
performs fetch_add(1) and stores a VersionedValue whose version is the
incremented counter; read_channel_manager initialises the counter from the
stored envelope via swap.  The atomic is modelled as a Nat field reduced
modulo 2^32 exactly where the u32 arithmetic occurs. -/

/-- Persister state: the manager_version atomic counter (a u32). -/
structure PersisterState where
  managerVersion : Nat
deriving DecidableEq

/-- State produced by MutinyNodePersister::new — the counter starts at 0. -/
def persisterNew : PersisterState := ⟨0⟩

/-- One persist_manager call: fetch_add(1) on the counter, returning the
version written into the stored VersionedValue envelope, together with the
successor state.  Both the stored counter and the written version are u32
values, hence the modulus. -/
def persistManagerVersion (s : PersisterState) : Nat × PersisterState :=
  let old := s.managerVersion
  (((old + 1) % U32MOD), ⟨(old + 1) % U32MOD⟩)

/-- Sequence of n persist_manager calls from state s: the list of versions
written, in call order, with the final state. -/
def runPersistManager : Nat → PersisterState → List Nat × PersisterState
  | 0, s => ([], s)
  | n + 1, s =>
    let p := persistManagerVersion s
    let r := runPersistManager n p.2
    (p.1 :: r.1, r.2)

theorem runPersistManager_versions (n : Nat) :
    ∀ c : Nat, c + n < U32MOD →
      (runPersistManager n ⟨c⟩).1 = (List.range n).map (fun j => c + j + 1) := by
  induction n with
  | zero => intro c _; rfl
  | succ n ih =>
    intro c hc
    have h1 : (c + 1) % U32MOD = c + 1 := Nat.mod_eq_of_lt (by omega)
    have h2 := ih (c + 1) (by omega)
    simp only [runPersistManager, persistManagerVersion, h1, h2,
      List.range_succ_eq_map, List.map_cons, List.map_map]
    refine List.cons_eq_cons.mpr ⟨by omega, ?_⟩
    apply List.map_congr_left
    intro j _
    simp only [Function.comp_apply]
    omega

/-- C2: starting from a fresh counter (MutinyNodePersister::new), a sequence
of N persist_manager calls writes exactly the versions 1, 2, ..., N in call
order — the i-th call stores version i — so versions increase by exactly 1
per call with no gaps and no repeats.  The counter is a single atomic with
fetch-and-add semantics, so any concurrent execution of the N calls
linearises to one such sequential order. -/
theorem persist_manager_versions_sequential (N i : Nat)
    (h1 : 1 ≤ i) (h2 : i ≤ N) (hN : N < U32MOD) :
    (runPersistManager N persisterNew).1 = (List.range N).map (fun j => j + 1) ∧
    (runPersistManager N persisterNew).1.get? (i - 1) = some i := by
  have hlist := runPersistManager_versions N 0 (by omega)
  have hfun : (fun j => 0 + j + 1) = fun j : Nat => j + 1 := by
    funext j; omega
  rw [hfun] at hlist
  refine ⟨hlist, ?_⟩
  have hl0 : (runPersistManager N persisterNew).1 =
      List.map (fun j => j + 1) (List.range N) := hlist
  rw [hl0, List.get?_map, List.get?_range (by omega : i - 1 < N)]
  simp only [Option.map_some']
  exact congrArg some (by omega)

/-- Witness for C2 at N = 3, i = 2: three calls on a fresh persister write
versions [1, 2, 3] and the second call writes version 2 (Scenario A). -/
theorem persist_manager_versions_sequential_witness :
    (runPersistManager 3 persisterNew).1 = (List.range 3).map (fun j => j + 1) ∧
    (runPersistManager 3 persisterNew).1.get? (2 - 1) = some 2 :=
  persist_manager_versions_sequential 3 2 (by norm_num) (by norm_num)
    (by norm_num [U32MOD])

/-! ## Counter initialisation on load (ldkstorage.rs, read_channel_manager)

read_channel_manager reads the stored manager under the versioned-envelope
format first; on a successful envelope read and parse it swaps the counter
to the envelope version; when no value is stored it builds a fresh manager;
when the envelope read fails it falls back to the legacy unversioned byte
blob, leaving the counter untouched.  Only the effect on the version counter
and the is_restarting flag is modelled; the LDK manager parse itself is an
external collaborator. -/

/-- Shape of the channel-manager entry found in storage at load time. -/
inductive StoredManager
  /-- A VersionedValue envelope whose payload parses as a channel manager. -/
  | versionedOk (version : Nat)
  /-- A VersionedValue envelope whose payload fails to parse. -/
  | versionedBad (version : Nat)
  /-- The legacy unversioned byte blob, parsing successfully. -/
  | legacyOk
  /-- A value that is neither a readable envelope nor a readable legacy blob. -/
  | legacyBad
  /-- No channel-manager entry stored at all. -/
  | absent
deriving DecidableEq

/-- Effect of read_channel_manager on the persister counter: returns the
updated persister state and the is_restarting flag, or an error when the
stored state cannot be read in either format. -/
def readChannelManagerCounter (s : PersisterState) :
    StoredManager → Except Unit (PersisterState × Bool)
  | StoredManager.versionedOk v => Except.ok (⟨v⟩, true)
  | StoredManager.versionedBad _ => Except.error ()
  | StoredManager.legacyOk => Except.ok (s, true)
  | StoredManager.legacyBad => Except.error ()
  | StoredManager.absent => Except.ok (s, false)

/-- C9: the counter starts at 0 at construction and is initialised from the
last-persisted version on load: after loading a versioned envelope with
version v the counter equals v and the next persist_manager call writes
v + 1; after loading a legacy unversioned blob the counter stays 0 (the
legacy format carries no version) and the next persist_manager call writes
version 1. -/
theorem manager_counter_initialised_from_store (v : Nat) (hv : v + 1 < U32MOD) :
    persisterNew.managerVersion = 0 ∧
    readChannelManagerCounter persisterNew (StoredManager.versionedOk v) =
      Except.ok (⟨v⟩, true) ∧
    (persistManagerVersion ⟨v⟩).1 = v + 1 ∧
    readChannelManagerCounter persisterNew StoredManager.legacyOk =
      Except.ok (persisterNew, true) ∧
    (persistManagerVersion persisterNew).1 = 1 := by
  refine ⟨rfl, rfl, ?_, rfl, ?_⟩
  · simp only [persistManagerVersion]
    exact Nat.mod_eq_of_lt (by omega)
  · rfl

/-! ## Monitor persist job (ldkstorage.rs, init_persist_monitor and
persist_monitor)

init_persist_monitor spawns a retry loop: each iteration calls
persist_monitor, which on the first attempt (is_retry false) performs
set_data_async against the storage contract, and on every later attempt
(is_retry true) calls put_objects on the VSS client when one is configured
— and returns Ok without writing anywhere when none is.  On a successful
persist the loop invokes chain_monitor.channel_monitor_updated; when that
returns Ok the loop breaks, otherwise (and on a failed persist) it sets
is_retry and sleeps 1 second before the next iteration.

The loop is modelled as a fuel-indexed trace generator.  The outcome of
each underlying storage operation is an oracle indexed by the attempt
number; the write operations themselves (set_data_async, put_objects) live
outside the embedded files and are modelled from the specification as
fallible black boxes. -/

/-- Observable step of the monitor persist job. -/
inductive PersistEvent
  /-- A set_data_async attempt (first, non-retry attempt) and its result. -/
  | setData (ok : Bool)
  /-- A vss put_objects attempt (retry attempt, remote store configured). -/
  | vssPut (ok : Bool)
  /-- A retry attempt with no remote store configured: persist_monitor
  returns Ok without performing any write. -/
  | vssSkip
  /-- An invocation of chain_monitor.channel_monitor_updated and its result. -/
  | monitorUpdated (ok : Bool)
deriving DecidableEq

/-- Persister configuration: whether a VSS remote store is configured. -/
structure PersistConfig where
  hasVss : Bool
deriving DecidableEq

/-- The storage event of one persist_monitor call, given the retry flag and
the outcomes of the underlying operations. -/
def persistMonitorEvent (cfg : PersistConfig) (isRetry setOk vssOk : Bool) :
    PersistEvent :=
  if isRetry then
    if cfg.hasVss then PersistEvent.vssPut vssOk else PersistEvent.vssSkip
  else PersistEvent.setData setOk

/-- Whether the persist_monitor call reports success, given the retry flag
and the outcomes of the underlying operations. -/
def persistMonitorOk (cfg : PersistConfig) (isRetry setOk vssOk : Bool) : Bool :=
  if isRetry then (if cfg.hasVss then vssOk else true) else setOk

/-- Trace of the init_persist_monitor retry loop, truncated at the given
fuel.  setOut, vssOut and notifyOut give the outcome of set_data_async,
put_objects and channel_monitor_updated on iteration i. -/
def initPersistMonitorTrace (cfg : PersistConfig)
    (setOut vssOut notifyOut : Nat → Bool) :
    Nat → Nat → Bool → List PersistEvent
  | 0, _, _ => []
  | fuel + 1, i, isRetry =>
    let ev := persistMonitorEvent cfg isRetry (setOut i) (vssOut i)
    if persistMonitorOk cfg isRetry (setOut i) (vssOut i) then
      if notifyOut i then
        [ev, PersistEvent.monitorUpdated true]
      else
        ev :: PersistEvent.monitorUpdated false ::
          initPersistMonitorTrace cfg setOut vssOut notifyOut fuel (i + 1) true
    else
      ev :: initPersistMonitorTrace cfg setOut vssOut notifyOut fuel (i + 1) true

/-- Whether an event is an invocation of the completion callback. -/
def isMonitorUpdated : PersistEvent → Bool
  | PersistEvent.monitorUpdated _ => true
  | _ => false

/-- Whether an event is a write confirmed successful by a store. -/
def isConfirmedWrite : PersistEvent → Bool
  | PersistEvent.setData true => true
  | PersistEvent.vssPut true => true
  | _ => false

/-- Whether an event is a write confirmed successful by a store, or the
no-op retry step that persist_monitor reports as success when no remote
store is configured. -/
def isConfirmedWriteOrSkip : PersistEvent → Bool
  | PersistEvent.setData true => true
  | PersistEvent.vssPut true => true
  | PersistEvent.vssSkip => true
  | _ => false

/-- Whether an event is a storage attempt step of the job (as opposed to a
callback invocation). -/
def isStorageAttempt : PersistEvent → Bool
  | PersistEvent.monitorUpdated _ => false
  | _ => true

/-- Scans a trace and checks that every completion-callback invocation is
immediately preceded by an event satisfying good; prev is the event just
before the scanned part. -/
def callbacksPreceded (good : PersistEvent → Bool) :
    Option PersistEvent → List PersistEvent → Bool
  | _, [] => true
  | prev, e :: rest =>
    (if isMonitorUpdated e then
      match prev with
      | some p => good p
      | none => false
    else true) && callbacksPreceded good (some e) rest

theorem callbacksPreceded_trace (cfg : PersistConfig)
    (setOut vssOut notifyOut : Nat → Bool) (good : PersistEvent → Bool)
    (hset : good (PersistEvent.setData true) = true)
    (hvss : good (PersistEvent.vssPut true) = true)
    (hskip : cfg.hasVss = false → good PersistEvent.vssSkip = true) :
    ∀ (fuel i : Nat) (isRetry : Bool) (prev : Option PersistEvent),
      callbacksPreceded good prev
        (initPersistMonitorTrace cfg setOut vssOut notifyOut fuel i isRetry) = true := by
  obtain ⟨b⟩ := cfg
  have hskip' : b = false → good PersistEvent.vssSkip = true := hskip
  clear hskip
  intro fuel
  induction fuel with
  | zero => intro i isRetry prev; rfl
  | succ fuel ih =>
    intro i isRetry prev
    cases b <;> cases isRetry <;>
      cases hs : setOut i <;> cases hv2 : vssOut i <;> cases hn : notifyOut i <;>
      simp_all [initPersistMonitorTrace, persistMonitorEvent, persistMonitorOk,
        callbacksPreceded, isMonitorUpdated]

theorem isMonitorUpdated_persistMonitorEvent (cfg : PersistConfig) (r s v : Bool) :
    isMonitorUpdated (persistMonitorEvent cfg r s v) = false := by
  obtain ⟨b⟩ := cfg
  cases r <;> cases b <;> rfl

theorem isStorageAttempt_persistMonitorEvent (cfg : PersistConfig) (r s v : Bool) :
    isStorageAttempt (persistMonitorEvent cfg r s v) = true := by
  obtain ⟨b⟩ := cfg
  cases r <;> cases b <;> rfl

theorem initPersistMonitorTrace_head (cfg : PersistConfig)
    (setOut vssOut notifyOut : Nat → Bool) (fuel i : Nat) (isRetry : Bool) :
    (initPersistMonitorTrace cfg setOut vssOut notifyOut (fuel + 1) i isRetry).head? =
      some (persistMonitorEvent cfg isRetry (setOut i) (vssOut i)) := by
  simp only [initPersistMonitorTrace]
  by_cases hok : persistMonitorOk cfg isRetry (setOut i) (vssOut i) = true <;>
    by_cases hn : notifyOut i = true <;> simp [hok, hn]

/-- C1 counterexample: with no remote store configured, when the first
set_data_async attempt fails, the next loop iteration runs with is_retry
set; persist_monitor then has no VSS client and returns Ok without writing
anywhere, so channel_monitor_updated is invoked although no store ever
confirmed a successful write: the trace contains a callback invocation and
no store-confirmed write at all. -/
theorem monitor_ack_unconfirmed_counterexample :
    initPersistMonitorTrace ⟨false⟩ (fun _ => false) (fun _ => true) (fun _ => true)
        2 0 false =
      [PersistEvent.setData false, PersistEvent.vssSkip,
        PersistEvent.monitorUpdated true] ∧
    callbacksPreceded isConfirmedWrite none
      (initPersistMonitorTrace ⟨false⟩ (fun _ => false) (fun _ => true) (fun _ => true)
        2 0 false) = false ∧
    (initPersistMonitorTrace ⟨false⟩ (fun _ => false) (fun _ => true) (fun _ => true)
        2 0 false).any isConfirmedWrite = false ∧
    (initPersistMonitorTrace ⟨false⟩ (fun _ => false) (fun _ => true) (fun _ => true)
        2 0 false).any isMonitorUpdated = true :=
  ⟨rfl, rfl, rfl, rfl⟩

/-- C1 (amended): whenever a remote store is configured, every invocation of
channel_monitor_updated in the persist-job trace is immediately preceded by
a write the underlying store confirmed successful (set_data_async on a first
attempt, put_objects on a retry); and in every configuration the invocation
is immediately preceded either by such a confirmed write or by the no-op
retry step that persist_monitor reports as success when no remote store is
configured. -/
theorem monitor_ack_confirmed_amended (cfg : PersistConfig)
    (setOut vssOut notifyOut : Nat → Bool) (fuel i : Nat) (isRetry : Bool) :
    callbacksPreceded isConfirmedWrite none
      (initPersistMonitorTrace ⟨true⟩ setOut vssOut notifyOut fuel i isRetry) = true ∧
    callbacksPreceded isConfirmedWriteOrSkip none
      (initPersistMonitorTrace cfg setOut vssOut notifyOut fuel i isRetry) = true := by
  constructor
  · exact callbacksPreceded_trace ⟨true⟩ setOut vssOut notifyOut isConfirmedWrite
      rfl rfl (fun h => nomatch h) fuel i isRetry none
  · exact callbacksPreceded_trace cfg setOut vssOut notifyOut isConfirmedWriteOrSkip
      rfl rfl (fun _ => rfl) fuel i isRetry none

/-- C5 counterexample: the first write succeeds, the chain-monitor
notification fails, and the job then performs another storage attempt for
the same monitor update — the trace after the failed notification contains a
further storage attempt, refuting that no further write attempt is made. -/
theorem notify_failure_no_retrigger_counterexample :
    initPersistMonitorTrace ⟨true⟩ (fun _ => true) (fun _ => true)
        (fun i => decide (0 < i)) 2 0 false =
      [PersistEvent.setData true, PersistEvent.monitorUpdated false,
        PersistEvent.vssPut true, PersistEvent.monitorUpdated true] ∧
    (initPersistMonitorTrace ⟨true⟩ (fun _ => true) (fun _ => true)
        (fun i => decide (0 < i)) 2 0 false).get? 0 = some (PersistEvent.setData true) ∧
    (initPersistMonitorTrace ⟨true⟩ (fun _ => true) (fun _ => true)
        (fun i => decide (0 < i)) 2 0 false).get? 1 =
      some (PersistEvent.monitorUpdated false) ∧
    ((initPersistMonitorTrace ⟨true⟩ (fun _ => true) (fun _ => true)
        (fun i => decide (0 < i)) 2 0 false).drop 2).any isStorageAttempt = true :=
  ⟨rfl, rfl, rfl, rfl⟩

/-- C5 (amended): when a storage attempt succeeds but the subsequent
channel_monitor_updated invocation fails, the job logs the error and then
re-runs the whole attempt with is_retry set: the storage write is
re-triggered, so the trace continues after the failed notification with a
further storage attempt. -/
theorem notify_failure_retriggers_write (cfg : PersistConfig)
    (setOut vssOut notifyOut : Nat → Bool) (fuel i : Nat)
    (hok : persistMonitorOk cfg false (setOut i) (vssOut i) = true)
    (hn : notifyOut i = false) :
    initPersistMonitorTrace cfg setOut vssOut notifyOut (fuel + 2) i false =
      persistMonitorEvent cfg false (setOut i) (vssOut i) ::
        PersistEvent.monitorUpdated false ::
        initPersistMonitorTrace cfg setOut vssOut notifyOut (fuel + 1) (i + 1) true ∧
    ((initPersistMonitorTrace cfg setOut vssOut notifyOut (fuel + 1) (i + 1) true).head?.map
        isStorageAttempt) = some true := by
  constructor
  · show initPersistMonitorTrace cfg setOut vssOut notifyOut ((fuel + 1) + 1) i false = _
    simp [initPersistMonitorTrace, hok, hn]
  · rw [initPersistMonitorTrace_head, Option.map_some',
      isStorageAttempt_persistMonitorEvent]

/-- Witness for C5 (amended): with a remote store, a succeeding first write
and a failing first notification, the trace is the failed-notification step
followed by a new storage attempt. -/
theorem notify_failure_retriggers_write_witness :
    initPersistMonitorTrace ⟨true⟩ (fun _ => true) (fun _ => true) (fun _ => false)
        (0 + 2) 0 false =
      persistMonitorEvent ⟨true⟩ false true true ::
        PersistEvent.monitorUpdated false ::
        initPersistMonitorTrace ⟨true⟩ (fun _ => true) (fun _ => true) (fun _ => false)
          (0 + 1) (0 + 1) true ∧
    ((initPersistMonitorTrace ⟨true⟩ (fun _ => true) (fun _ => true) (fun _ => false)
        (0 + 1) (0 + 1) true).head?.map isStorageAttempt) = some true :=
  notify_failure_retriggers_write ⟨true⟩ (fun _ => true) (fun _ => true)
    (fun _ => false) 0 0 rfl rfl

/-- Witness for C9 at stored version 41: the counter is 41 after the load
and the next persist writes version 42. -/
theorem manager_counter_initialised_from_store_witness :
    persisterNew.managerVersion = 0 ∧
    readChannelManagerCounter persisterNew (StoredManager.versionedOk 41) =
      Except.ok (⟨41⟩, true) ∧
    (persistManagerVersion ⟨41⟩).1 = 41 + 1 ∧
    readChannelManagerCounter persisterNew StoredManager.legacyOk =
      Except.ok (persisterNew, true) ∧
    (persistManagerVersion persisterNew).1 = 1 :=
  manager_counter_initialised_from_store 41 (by norm_num [U32MOD])

/-! ## Startup reconciliation (indexed_db.rs, read_all and handle_vss_key)

read_all replays the local store into an in-memory cache and, when a VSS
client is configured, processes each (key, version) pair the remote store
reports: handle_vss_key dispatches on the key, compares the locally derived
version with the reported remote version, and returns the remote object
when it is to be preferred; read_all then writes that object into the
cache.  Keys are modelled as character lists; cache values are modelled by
an inductive covering the decode outcomes the dispatch distinguishes.

The storage helpers get_data / get and the VSS client get_object live
outside the embedded files; they are modelled from the specification as
lookups plus the decode outcome recorded in the stored value, and
get_monitor_version is modelled from the specification as reading the
update-id embedded in the monitor encoding. -/

/-- Key of the node list entry ("nodes"); modelled from the spec, the
constant lives outside the embedded files. -/
def NODES_KEY : List Char := ['n', 'o', 'd', 'e', 's']

/-- Key of the device lock entry ("device_lock"); modelled from the spec,
the constant lives outside the embedded files. -/
def DEVICE_LOCK_KEY : List Char :=
  ['d', 'e', 'v', 'i', 'c', 'e', '_', 'l', 'o', 'c', 'k']

/-- Channel-manager key stem "manager" (ldkstorage.rs CHANNEL_MANAGER_KEY). -/
def CHANNEL_MANAGER_KEY : List Char := ['m', 'a', 'n', 'a', 'g', 'e', 'r']

/-- Monitor key stem "monitors/" (ldkstorage.rs MONITORS_PREFIX_KEY). -/
def MONITORS_KEY : List Char := ['m', 'o', 'n', 'i', 't', 'o', 'r', 's', '/']

/-- Bool test that key begins with the pattern (str::starts_with). -/
def startsWithKey : List Char → List Char → Bool
  | [], _ => true
  | _ :: _, [] => false
  | a :: pat, b :: key => a == b && startsWithKey pat key

theorem startsWithKey_append (pat rest : List Char) :
    startsWithKey pat (pat ++ rest) = true := by
  induction pat with
  | nil => rfl
  | cons a pat ih => simp [startsWithKey, ih]

theorem startsWithKey_exists {pat key : List Char}
    (h : startsWithKey pat key = true) : ∃ rest, key = pat ++ rest := by
  induction pat generalizing key with
  | nil => exact ⟨key, rfl⟩
  | cons a pat ih =>
    cases key with
    | nil => exact absurd h (by simp [startsWithKey])
    | cons b key =>
      simp only [startsWithKey, Bool.and_eq_true, beq_iff_eq] at h
      obtain ⟨rest, hrest⟩ := ih h.2
      exact ⟨rest, by rw [h.1, hrest]; rfl⟩

/-- A value held in the cache or returned by the remote store, classified by
how it decodes. -/
inductive StoredValue
  /-- A value decoding as a VersionedValue envelope with the given version
  (also stands for the node-list and device-lock records, whose embedded
  version or time field plays the same role). -/
  | envelope (version : Nat) (tag : Nat)
  /-- A byte blob decoding as Vec of u8: a serialized channel monitor whose
  encoding embeds the given update-id. -/
  | monitorEnc (updateId : Nat) (tag : Nat)
  /-- A value decoding neither as an envelope nor as a byte blob. -/
  | undecodable (tag : Nat)
deriving DecidableEq

/-- Version field obtained by decoding a value as a versioned envelope
(serde into VersionedValue / NodeStorage / DeviceLock); none when the
decode fails. -/
def decodeEnvelopeVersion : StoredValue → Option Nat
  | StoredValue.envelope v _ => some v
  | _ => none

/-- Decode of a cached value as a Vec of u8 holding a monitor encoding,
yielding the embedded update-id (get, then get_monitor_version; the latter
is modelled from the spec as the update-id embedded in the encoding). -/
def decodeMonitorUpdateId : StoredValue → Option Nat
  | StoredValue.monitorEnc u _ => some u
  | _ => none

/-- A (key, version) pair reported by the remote store enumeration. -/
structure KeyVersion where
  key : List Char
  version : Nat

/-- Local in-memory cache built from the local store. -/
def Cache : Type := List Char → Option StoredValue

/-- Remote store contents: get_object result per key, none when the fetch
fails. -/
def Remote : Type := List Char → Option StoredValue

/-- Result of handle_vss_key: the outcome (an error, nothing to update, or
the key/value pair to write into the cache), together with whether
get_object was called on the remote store. -/
structure HandleOutcome where
  outcome : Except Unit (Option ((List Char) × StoredValue))
  fetched : Bool

/-- One handle_vss_key call (indexed_db.rs lines 291-407): dispatch on the
key, compare versions, fetch the remote object when the remote version wins,
and decide whether the cache entry is replaced. -/
def handleVssKey (kv : KeyVersion) (current : Cache) (remote : Remote) :
    HandleOutcome :=
  if kv.key = NODES_KEY then
    match current kv.key with
    | some localVal =>
      match decodeEnvelopeVersion localVal with
      | none => ⟨Except.error (), false⟩
      | some lv =>
        if lv < kv.version then
          match remote kv.key with
          | none => ⟨Except.error (), true⟩
          | some obj =>
            if (decodeEnvelopeVersion obj).isSome then
              ⟨Except.ok (some (kv.key, obj)), true⟩
            else ⟨Except.ok none, true⟩
        else ⟨Except.ok none, false⟩
    | none =>
      match remote kv.key with
      | none => ⟨Except.error (), true⟩
      | some obj => ⟨Except.ok (some (kv.key, obj)), true⟩
  else if kv.key = DEVICE_LOCK_KEY then
    match current kv.key with
    | some localVal =>
      match decodeEnvelopeVersion localVal with
      | none => ⟨Except.error (), false⟩
      | some lockTime =>
        if lockTime < kv.version then
          match remote kv.key with
          | none => ⟨Except.error (), true⟩
          | some obj =>
            if (decodeEnvelopeVersion obj).isSome then
              ⟨Except.ok (some (kv.key, obj)), true⟩
            else ⟨Except.ok none, true⟩
        else ⟨Except.ok none, false⟩
    | none =>
      match remote kv.key with
      | none => ⟨Except.error (), true⟩
      | some obj => ⟨Except.ok (some (kv.key, obj)), true⟩
  else if startsWithKey MONITORS_KEY kv.key then
    match current kv.key with
    | some localVal =>
      match decodeMonitorUpdateId localVal with
      | none => ⟨Except.error (), false⟩
      | some currentVersion =>
        if currentVersion < kv.version then
          match remote kv.key with
          | none => ⟨Except.error (), true⟩
          | some obj => ⟨Except.ok (some (kv.key, obj)), true⟩
        else ⟨Except.ok none, false⟩
    | none =>
      match remote kv.key with
      | none => ⟨Except.error (), true⟩
      | some obj => ⟨Except.ok (some (kv.key, obj)), true⟩
  else if startsWithKey CHANNEL_MANAGER_KEY kv.key then
    match current kv.key with
    | some localVal =>
      match decodeEnvelopeVersion localVal with
      | none => ⟨Except.error (), false⟩
      | some lv =>
        if lv < kv.version then
          match remote kv.key with
          | none => ⟨Except.error (), true⟩
          | some obj =>
            if (decodeEnvelopeVersion obj).isSome then
              ⟨Except.ok (some (kv.key, obj)), true⟩
            else ⟨Except.ok none, true⟩
        else ⟨Except.ok none, false⟩
    | none =>
      match remote kv.key with
      | none => ⟨Except.error (), true⟩
      | some obj =>
        if (decodeEnvelopeVersion obj).isSome then
          ⟨Except.ok (some (kv.key, obj)), true⟩
        else ⟨Except.ok none, true⟩
  else ⟨Except.ok none, false⟩

/-- Cache after writing one key/value pair (read_all, map.set_data). -/
def cacheSet (c : Cache) (k : List Char) (v : StoredValue) : Cache :=
  fun k' => if k' = k then some v else c k'

/-- Cache after read_all processes one reported (key, version) pair: apply
the handle_vss_key outcome, propagating its error. -/
def reconcileVssKey (kv : KeyVersion) (current : Cache) (remote : Remote) :
    Except Unit Cache :=
  match (handleVssKey kv current remote).outcome with
  | Except.error e => Except.error e
  | Except.ok none => Except.ok current
  | Except.ok (some (k, v)) => Except.ok (cacheSet current k v)

theorem manager_key_not_nodes {key : List Char}
    (hman : startsWithKey CHANNEL_MANAGER_KEY key = true) :
    key ≠ NODES_KEY := by
  intro heq
  rw [heq] at hman
  exact absurd hman (by decide)

theorem manager_key_not_device {key : List Char}
    (hman : startsWithKey CHANNEL_MANAGER_KEY key = true) :
    key ≠ DEVICE_LOCK_KEY := by
  intro heq
  rw [heq] at hman
  exact absurd hman (by decide)

theorem manager_key_not_monitors {key : List Char}
    (hman : startsWithKey CHANNEL_MANAGER_KEY key = true) :
    startsWithKey MONITORS_KEY key = false := by
  obtain ⟨rest, rfl⟩ := startsWithKey_exists hman
  rfl

theorem monitors_key_not_nodes {key : List Char}
    (hmon : startsWithKey MONITORS_KEY key = true) :
    key ≠ NODES_KEY := by
  intro heq
  rw [heq] at hmon
  exact absurd hmon (by decide)

theorem monitors_key_not_device {key : List Char}
    (hmon : startsWithKey MONITORS_KEY key = true) :
    key ≠ DEVICE_LOCK_KEY := by
  intro heq
  rw [heq] at hmon
  exact absurd hmon (by decide)

/-- C3: for a channel-manager key present locally as an envelope with
version L and reported remotely with version R, reconciliation leaves the
cache holding the remote value exactly when R is strictly greater than L
and the remote payload decodes as a versioned envelope; otherwise — R not
strictly greater, or the remote payload failing to decode — the local value
is kept. -/
theorem reconcile_manager_prefers_newer (key : List Char) (L R ltag : Nat)
    (rval : StoredValue) (cache : Cache) (remote : Remote)
    (hman : startsWithKey CHANNEL_MANAGER_KEY key = true)
    (hloc : cache key = some (StoredValue.envelope L ltag))
    (hrem : remote key = some rval) :
    (reconcileVssKey ⟨key, R⟩ cache remote).map (fun c => c key) =
      Except.ok (if (decodeEnvelopeVersion rval).isSome = true ∧ L < R
        then some rval else some (StoredValue.envelope L ltag)) := by
  have hn := manager_key_not_nodes hman
  have hd := manager_key_not_device hman
  have hm := manager_key_not_monitors hman
  by_cases hLR : L < R
  · cases rval with
    | envelope rv rtag =>
      simp [reconcileVssKey, handleVssKey, Except.map, hn, hd, hm, hman,
        hloc, hrem, hLR, decodeEnvelopeVersion, cacheSet]
    | monitorEnc u t =>
      simp [reconcileVssKey, handleVssKey, Except.map, hn, hd, hm, hman,
        hloc, hrem, hLR, decodeEnvelopeVersion]
    | undecodable t =>
      simp [reconcileVssKey, handleVssKey, Except.map, hn, hd, hm, hman,
        hloc, hrem, hLR, decodeEnvelopeVersion]
  · simp [reconcileVssKey, handleVssKey, Except.map, hn, hd, hm, hman,
      hloc, hrem, hLR, decodeEnvelopeVersion]

/-- Concrete channel-manager key for the reconciliation examples. -/
def managerDemoKey : List Char := CHANNEL_MANAGER_KEY ++ ['_', 'a']

/-- Concrete local cache holding an envelope of version 5 under the demo
manager key. -/
def managerDemoCache : Cache :=
  fun k => if k = managerDemoKey then some (StoredValue.envelope 5 0) else none

/-- Concrete remote store holding an envelope of version 7 under the demo
manager key. -/
def managerDemoRemote : Remote :=
  fun k => if k = managerDemoKey then some (StoredValue.envelope 7 1) else none

/-- Witness for C3: local envelope version 5, remote version 7 with a
decodable payload — the post-reconciliation cache holds the remote value
(Scenario C). -/
theorem reconcile_manager_prefers_newer_witness :
    (reconcileVssKey ⟨managerDemoKey, 7⟩ managerDemoCache managerDemoRemote).map
        (fun c => c managerDemoKey) =
      Except.ok (if (decodeEnvelopeVersion (StoredValue.envelope 7 1)).isSome = true ∧ 5 < 7
        then some (StoredValue.envelope 7 1) else some (StoredValue.envelope 5 0)) :=
  reconcile_manager_prefers_newer managerDemoKey 5 7 0 (StoredValue.envelope 7 1)
    managerDemoCache managerDemoRemote rfl rfl rfl

/-- C4 (amended): for a monitor key present both locally and remotely, the
remote copy is fetched exactly when the reported remote version strictly
exceeds the update-id embedded in the locally stored monitor encoding; and
once fetched, the remote value replaces the local cache entry without any
decode validation — reconciliation stores it even when it decodes neither
as a monitor byte blob nor as an envelope. -/
theorem reconcile_monitor_fetch_amended (key : List Char) (u R ltag : Nat)
    (rval : StoredValue) (cache : Cache) (remote : Remote)
    (hmon : startsWithKey MONITORS_KEY key = true)
    (hloc : cache key = some (StoredValue.monitorEnc u ltag))
    (hrem : remote key = some rval) :
    (handleVssKey ⟨key, R⟩ cache remote).fetched = decide (u < R) ∧
    (reconcileVssKey ⟨key, R⟩ cache remote).map (fun c => c key) =
      Except.ok (if u < R then some rval
        else some (StoredValue.monitorEnc u ltag)) := by
  have hn := monitors_key_not_nodes hmon
  have hd := monitors_key_not_device hmon
  by_cases huR : u < R
  · simp [reconcileVssKey, handleVssKey, Except.map, hn, hd, hmon,
      hloc, hrem, huR, decodeMonitorUpdateId, cacheSet]
  · simp [reconcileVssKey, handleVssKey, Except.map, hn, hd, hmon,
      hloc, hrem, huR, decodeMonitorUpdateId]

/-- Concrete monitor key for the reconciliation examples. -/
def monitorDemoKey : List Char := MONITORS_KEY ++ ['a', 'a']

/-- Concrete local cache holding a monitor encoding with update-id 5 under
the demo monitor key. -/
def monitorDemoCache : Cache :=
  fun k => if k = monitorDemoKey then some (StoredValue.monitorEnc 5 0) else none

/-- Concrete remote store holding, under the demo monitor key, a value that
does not decode. -/
def monitorDemoRemote : Remote :=
  fun k => if k = monitorDemoKey then some (StoredValue.undecodable 3) else none

/-- C4 counterexample: local monitor with embedded update-id 5, remote
reports version 7 but its payload fails to decode; reconciliation still
replaces the local copy with the undecodable remote value — the monitors
branch of handle_vss_key has no decode check, so a failed remote decode is
not treated as skip-keep-local. -/
theorem reconcile_monitor_decode_counterexample :
    (reconcileVssKey ⟨monitorDemoKey, 7⟩ monitorDemoCache monitorDemoRemote).map
        (fun c => c monitorDemoKey) =
      Except.ok (some (StoredValue.undecodable 3)) ∧
    decodeMonitorUpdateId (StoredValue.undecodable 3) = none ∧
    decodeEnvelopeVersion (StoredValue.undecodable 3) = none ∧
    monitorDemoCache monitorDemoKey = some (StoredValue.monitorEnc 5 0) ∧
    (some (StoredValue.undecodable 3) : Option StoredValue) ≠
      some (StoredValue.monitorEnc 5 0) :=
  ⟨rfl, rfl, rfl, rfl, by decide⟩

/-- Witness for C4 (amended): with local update-id 5 and remote version 7
the remote object is fetched and stored; the fetched flag is the strict
comparison. -/
theorem reconcile_monitor_fetch_amended_witness :
    (handleVssKey ⟨monitorDemoKey, 7⟩ monitorDemoCache monitorDemoRemote).fetched =
      decide (5 < 7) ∧
    (reconcileVssKey ⟨monitorDemoKey, 7⟩ monitorDemoCache monitorDemoRemote).map
        (fun c => c monitorDemoKey) =
      Except.ok (if 5 < 7 then some (StoredValue.undecodable 3)
        else some (StoredValue.monitorEnc 5 0)) :=
  reconcile_monitor_fetch_amended monitorDemoKey 5 7 0 (StoredValue.undecodable 3)
    monitorDemoCache monitorDemoRemote rfl rfl rfl

/-! ## read_channel_monitors (ldkstorage.rs lines 170-206)

The persister scans all monitor-prefixed keys carrying the node id suffix,
decodes each record as a (BlockHash, ChannelMonitor) pair, keeps exactly
those with a nonempty claimable-balance set, and turns the first decode
failure into an error for the whole call.  The scan itself belongs to the
storage contract outside the embedded files and is modelled from the
specification as a prefix and suffix filter over the stored entries. -/

/-- Decoded channel-monitor payload: the embedded update-id and the claimable
balances of the channel. -/
structure MonitorData where
  updateId : Nat
  claimableBalances : List Nat
deriving DecidableEq

/-- A stored monitor record: either it decodes to a block hash and monitor
data, or deserialization fails. -/
inductive MonitorRecord
  /-- A record decoding to the given block hash and monitor data. -/
  | good (blockHash : Nat) (data : MonitorData)
  /-- A record on which deserialization fails. -/
  | corrupt (tag : Nat)
deriving DecidableEq

/-- Whether a record fails to deserialize. -/
def isCorruptRecord : MonitorRecord → Bool
  | MonitorRecord.corrupt _ => true
  | _ => false

/-- Decode of a stored record into a (block hash, monitor) pair. -/
def decodeMonitorRecord : MonitorRecord → Option (Nat × MonitorData)
  | MonitorRecord.good bh d => some (bh, d)
  | MonitorRecord.corrupt _ => none

/-- Whether a decoded monitor is kept: only channels with a remaining
claimable balance need to be watched. -/
def keepMonitor (bm : Nat × MonitorData) : Bool :=
  !bm.2.claimableBalances.isEmpty

/-- Storage-contract scan over the stored entries, filtering by key start
and key end; modelled from the spec (scan lives outside the embedded
files). -/
def scanStore (keyStart keyEnd : List Char)
    (st : List ((List Char) × MonitorRecord)) :
    List ((List Char) × MonitorRecord) :=
  st.filter (fun kv => startsWithKey keyStart kv.1 && keyEnd.isSuffixOf kv.1)

/-- The try_fold over the scanned monitor buffers: decode each record,
fail on the first corrupt record, keep the monitors with claimable
balances. -/
def readMonitorsFold : List MonitorRecord → Except Unit (List (Nat × MonitorData))
  | [] => Except.ok []
  | MonitorRecord.corrupt _ :: _ => Except.error ()
  | MonitorRecord.good bh d :: rest =>
    match readMonitorsFold rest with
    | Except.error e => Except.error e
    | Except.ok tail =>
      Except.ok (if d.claimableBalances.isEmpty then tail else (bh, d) :: tail)

/-- read_channel_monitors: scan the monitor keys for the node and fold the
decoded records. -/
def read_channel_monitors (nodeId : List Char)
    (st : List ((List Char) × MonitorRecord)) :
    Except Unit (List (Nat × MonitorData)) :=
  readMonitorsFold ((scanStore MONITORS_KEY nodeId st).map Prod.snd)

theorem readMonitorsFold_spec (l : List MonitorRecord) :
    readMonitorsFold l =
      if l.any isCorruptRecord then Except.error ()
      else Except.ok ((l.filterMap decodeMonitorRecord).filter keepMonitor) := by
  induction l with
  | nil => rfl
  | cons r rest ih =>
    cases r with
    | corrupt t => simp [readMonitorsFold, isCorruptRecord]
    | good bh d =>
      cases hany : rest.any isCorruptRecord with
      | true =>
        rw [hany] at ih
        simp [readMonitorsFold, ih, List.any_cons, hany, isCorruptRecord]
      | false =>
        rw [hany] at ih
        simp only [readMonitorsFold, ih, List.any_cons, hany, isCorruptRecord,
          Bool.false_or, if_false, Bool.false_eq_true, List.filterMap_cons,
          decodeMonitorRecord, List.filter_cons, keepMonitor]
        by_cases hemp : d.claimableBalances.isEmpty = true <;> simp [hemp]

/-- C6: read_channel_monitors scans the monitor-prefixed keys for the node
and equals an error exactly when some scanned record fails to decode (no
corrupt record is silently skipped); otherwise it returns the decoded
records with exactly those monitors omitted whose channel has no remaining
claimable balance. -/
theorem read_channel_monitors_spec (nodeId : List Char)
    (st : List ((List Char) × MonitorRecord)) :
    read_channel_monitors nodeId st =
      if ((scanStore MONITORS_KEY nodeId st).map Prod.snd).any isCorruptRecord
      then Except.error ()
      else Except.ok
        ((((scanStore MONITORS_KEY nodeId st).map Prod.snd).filterMap
          decodeMonitorRecord).filter keepMonitor) :=
  readMonitorsFold_spec _

/-! ## Failed spendable outputs (ldkstorage.rs lines 472-547)

persist_failed_spendable_outputs reads the stored list of hex strings,
appends the hex encodings of the newly failed descriptors and writes the
result back; get_failed_spendable_outputs decodes each stored hex string
back into a descriptor.  Descriptors are modelled by their byte encodings;
that SpendableOutputDescriptor::read succeeds on a descriptor encoding is
the round-trip property of the external library, modelled from the spec. -/

/-- persist_failed_spendable_outputs: value written back for a stored hex
list (none when no list is stored yet) and a list of newly failed
descriptor encodings. -/
def persist_failed_spendable_outputs (stored : Option (List (List Char)))
    (failed : List (List Nat)) : List (List Char) :=
  stored.getD [] ++ failed.map bytesToHex

/-- The decode loop of get_failed_spendable_outputs: hex-decode each stored
string, failing on the first invalid entry. -/
def getFailedFold : List (List Char) → Except Unit (List (List Nat))
  | [] => Except.ok []
  | s :: rest =>
    match hexToBytes s with
    | none => Except.error ()
    | some bytes =>
      match getFailedFold rest with
      | Except.error e => Except.error e
      | Except.ok tail => Except.ok (bytes :: tail)

/-- get_failed_spendable_outputs over a stored hex list (none when the key
is absent). -/
def get_failed_spendable_outputs (stored : Option (List (List Char))) :
    Except Unit (List (List Nat)) :=
  getFailedFold (stored.getD [])

/-- C7: persist_failed_spendable_outputs appends, never overwrites: the
written value is the previously stored list followed by the encodings of
the new descriptors; in particular persisting descriptor A and then
descriptor B starting from an empty store makes the subsequent read return
[A, B], not just [B] (Scenario E). -/
theorem failed_spendable_outputs_accumulate (prev : List (List Char))
    (failed : List (List Nat)) (A B : List Nat)
    (hA : ∀ b ∈ A, b < 256) (hB : ∀ b ∈ B, b < 256) :
    persist_failed_spendable_outputs (some prev) failed =
      prev ++ failed.map bytesToHex ∧
    get_failed_spendable_outputs
      (some (persist_failed_spendable_outputs
        (some (persist_failed_spendable_outputs none [A])) [B])) =
      Except.ok [A, B] := by
  refine ⟨rfl, ?_⟩
  have h1 := hexToBytes_bytesToHex hA
  have h2 := hexToBytes_bytesToHex hB
  simp [persist_failed_spendable_outputs, get_failed_spendable_outputs,
    getFailedFold, h1, h2]

/-- Witness for C7 with descriptors A = [1, 255] and B = [0]: persisting A
then B yields a read of [A, B]. -/
theorem failed_spendable_outputs_accumulate_witness :
    persist_failed_spendable_outputs (some [['0', '7']]) [[2]] =
      [['0', '7']] ++ [[2]].map bytesToHex ∧
    get_failed_spendable_outputs
      (some (persist_failed_spendable_outputs
        (some (persist_failed_spendable_outputs none [[1, 255]])) [[0]])) =
      Except.ok [[1, 255], [0]] :=
  failed_spendable_outputs_accumulate [['0', '7']] [[2]] [1, 255] [0]
    (by decide) (by decide)

/-! ## read_payment_info (ldkstorage.rs lines 371-394)

persist_payment_info and read_payment_info address records under
payment_inbound/ or payment_outbound/ plus the hex of the payment hash,
suffixed with the node id; read_payment_info ends in ok-flatten, so a read
or deserialization error is swallowed into None. -/

/-- Key stem "payment_inbound/" (ldkstorage.rs PAYMENT_INBOUND_PREFIX_KEY). -/
def PAYMENT_INBOUND_KEY : List Char :=
  ['p', 'a', 'y', 'm', 'e', 'n', 't', '_', 'i', 'n', 'b', 'o', 'u', 'n', 'd', '/']

/-- Key stem "payment_outbound/" (ldkstorage.rs PAYMENT_OUTBOUND_PREFIX_KEY). -/
def PAYMENT_OUTBOUND_KEY : List Char :=
  ['p', 'a', 'y', 'm', 'e', 'n', 't', '_', 'o', 'u', 't', 'b', 'o', 'u', 'n', 'd', '/']

/-- payment_key: the per-direction stem followed by the hex of the payment
hash. -/
def payment_key (inbound : Bool) (paymentHash : List Nat) : List Char :=
  (if inbound then PAYMENT_INBOUND_KEY else PAYMENT_OUTBOUND_KEY) ++
    bytesToHex paymentHash

/-- get_key: a storage key suffixed with the node id. -/
def getNodeKey (key nodeId : List Char) : List Char :=
  key ++ '_' :: nodeId

/-- Outcome of a get_data call on the storage contract: a decoded value, an
absent key, or a read or deserialization error; modelled from the spec (the
storage contract lives outside the embedded files). -/
inductive GetDataResult (α : Type)
  /-- The key is present and its value decodes. -/
  | found (a : α)
  /-- The key is absent. -/
  | missing
  /-- The read fails or the stored value does not deserialize. -/
  | failed
deriving DecidableEq

/-- read_payment_info: look up the payment record and flatten any error
into None. -/
def read_payment_info (store : List Char → GetDataResult Nat)
    (nodeId : List Char) (paymentHash : List Nat) (inbound : Bool) : Option Nat :=
  match store (getNodeKey (payment_key inbound paymentHash) nodeId) with
  | GetDataResult.found p => some p
  | GetDataResult.missing => none
  | GetDataResult.failed => none

/-- C10: read_payment_info returns None both when no record is stored under
the derived key and when the stored record cannot be read or deserialized —
the error is swallowed, never propagated, so a corrupt record is
indistinguishable from an absent one; a decodable stored record is returned
as is. -/
theorem read_payment_info_swallows_errors (store : List Char → GetDataResult Nat)
    (nodeId : List Char) (paymentHash : List Nat) (inbound : Bool) :
    (store (getNodeKey (payment_key inbound paymentHash) nodeId) =
        GetDataResult.missing →
      read_payment_info store nodeId paymentHash inbound = none) ∧
    (store (getNodeKey (payment_key inbound paymentHash) nodeId) =
        GetDataResult.failed →
      read_payment_info store nodeId paymentHash inbound = none) ∧
    (∀ p, store (getNodeKey (payment_key inbound paymentHash) nodeId) =
        GetDataResult.found p →
      read_payment_info store nodeId paymentHash inbound = some p) := by
  cases h : store (getNodeKey (payment_key inbound paymentHash) nodeId) <;>
    simp [read_payment_info, h]

/-- Witness for C10: a store whose every read fails yields None from
read_payment_info. -/
theorem read_payment_info_swallows_errors_witness :
    read_payment_info (fun _ => GetDataResult.failed) ['n'] [0] true = none :=
  (read_payment_info_swallows_errors (fun _ => GetDataResult.failed)
    ['n'] [0] true).2.1 rfl

end MutinyNode
